import Mathlib

/-!
Verification of the formula layer of the real-estate depreciation and tax
scenario simulator (src/main.py).  Python floats are modelled as exact
rationals (ℚ); pandas DataFrames indexed by year are modelled as Lean lists
of records carrying their year index; Python dictionaries are modelled as
association lists in the source order.
-/

namespace TaxApp

/-- Embeds `calculate_depreciation` (src/main.py lines 12-24).
Returns `(bonus_depreciation, normal_depreciation, first_year_dep)`.
The Python function performs no input validation and raises nothing on
non-positive building value; division is total on ℚ as in the source the
only division is by `dep_years`. -/
def calculate_depreciation (property_value land_value dep_years bonus_percent : ℚ) :
    ℚ × ℚ × ℚ :=
  let building_value := property_value - land_value
  let bonus_depreciation := building_value * bonus_percent
  let normal_depreciation := (building_value - bonus_depreciation) / dep_years
  let first_year_dep := bonus_depreciation + normal_depreciation
  (bonus_depreciation, normal_depreciation, first_year_dep)

/-- One row of the DataFrame built by `multi_year_cash_flow`:
columns "Bonus Depreciation", "Normal Depreciation", "Total Depreciation",
"Cumulative Depreciation", together with the DataFrame index (the year). -/
structure YearRecord where
  year : ℕ
  bonus : ℚ
  normal : ℚ
  total : ℚ
  cumulative : ℚ
  deriving Repr, DecidableEq

/-- The loop body of `multi_year_cash_flow` (src/main.py lines 44-54):
builds the rows for years `y, y+1, ..., y+n-1` starting from the running
cumulative total `cum`. -/
def mycfRows (bonus_dep annual_normal_dep dep_years : ℚ) :
    ℕ → ℚ → ℕ → List YearRecord
  | _, _, 0 => []
  | y, cum, n + 1 =>
    let bonus := if y = 1 then bonus_dep else 0
    let norm := if y = 1 then annual_normal_dep
      else if (y : ℚ) ≤ dep_years then annual_normal_dep else 0
    let total := bonus + norm
    let cumulative := cum + total
    { year := y, bonus := bonus, normal := norm, total := total,
      cumulative := cumulative } :: mycfRows bonus_dep annual_normal_dep dep_years (y + 1) cumulative n

/-- Embeds `multi_year_cash_flow` (src/main.py lines 26-55): the depreciation
schedule for years `1 .. years`. -/
def multi_year_cash_flow (property_value land_value dep_years bonus_percent : ℚ)
    (years : ℕ) : List YearRecord :=
  let building_value := property_value - land_value
  let bonus_dep := building_value * bonus_percent
  let remaining_basis := building_value - bonus_dep
  let annual_normal_dep := remaining_basis / dep_years
  mycfRows bonus_dep annual_normal_dep dep_years 1 0 years

/-- The dictionary returned by `calculate_sale_tax` (src/main.py lines 75-81). -/
structure SaleTaxResult where
  adjusted_basis : ℚ
  total_gain : ℚ
  dep_recapture_tax : ℚ
  cap_gains_tax : ℚ
  total_tax : ℚ
  deriving Repr, DecidableEq

/-- Embeds `calculate_sale_tax` (src/main.py lines 57-81).  The Python
defaults `recapture_rate=0.25`, `capital_gains_rate=0.20` are passed
explicitly by every embedded caller. -/
def calculate_sale_tax (cost_basis sale_price cumulative_depreciation
    recapture_rate capital_gains_rate : ℚ) : SaleTaxResult :=
  let adjusted_basis := cost_basis - cumulative_depreciation
  let total_gain := sale_price - adjusted_basis
  let dep_recapture_tax := cumulative_depreciation * recapture_rate
  let remaining_gain := total_gain - cumulative_depreciation
  let cap_gains_tax := max remaining_gain 0 * capital_gains_rate
  let total_tax := dep_recapture_tax + cap_gains_tax
  { adjusted_basis := adjusted_basis, total_gain := total_gain,
    dep_recapture_tax := dep_recapture_tax, cap_gains_tax := cap_gains_tax,
    total_tax := total_tax }

/-- Embeds `simulate_1031_exchange` (src/main.py lines 83-89).  The argument
`reinvested_value` is accepted and never read, exactly as in the source. -/
def simulate_1031_exchange (sale_price total_depreciation cost_basis
    reinvested_value recapture_rate capital_gains_rate : ℚ) : ℚ :=
  let _ := reinvested_value
  let tax_data := calculate_sale_tax cost_basis sale_price total_depreciation
    recapture_rate capital_gains_rate
  tax_data.total_tax

/-- One asset-class entry of `get_asset_breakdown`:
`(percentage of building value, depreciation life in years, sample asset types)`. -/
structure AssetClassEntry where
  pct : ℚ
  life : ℚ
  asset_types : String
  deriving Repr, DecidableEq

/-- Embeds `get_asset_breakdown` (src/main.py lines 91-119).  The Python
dictionary keyed by property type with `.get(property_type, {})` is modelled
as a case split returning the inner dictionary as an association list in
source order, and `[]` for an unrecognized type. -/
def get_asset_breakdown (property_type : String) : List (String × AssetClassEntry) :=
  if property_type = "Multifamily" then
    [("5-year Assets", ⟨0.15, 5, "Appliances, Carpets, Furniture"⟩),
     ("15-year Assets", ⟨0.25, 15, "Land Improvements, Parking Lots, Landscaping"⟩),
     ("27.5-year Assets", ⟨0.60, 27.5, "Structural Components, Roof, Walls, HVAC (structural)"⟩)]
  else if property_type = "Hotel" then
    [("5-year Assets", ⟨0.25, 5, "Furniture, Fixtures, Equipment"⟩),
     ("15-year Assets", ⟨0.25, 15, "Renovations, Interior Improvements"⟩),
     ("39-year Assets", ⟨0.50, 39, "Building Shell, Structural Components"⟩)]
  else if property_type = "Retail" then
    [("5-year Assets", ⟨0.10, 5, "Display Units, POS Equipment"⟩),
     ("15-year Assets", ⟨0.25, 15, "Store Fixtures, Signage, Interior Finishes"⟩),
     ("39-year Assets", ⟨0.65, 39, "Building Structure, Roof, Walls"⟩)]
  else if property_type = "Office" then
    [("5-year Assets", ⟨0.10, 5, "Furniture, Computers, Office Equipment"⟩),
     ("15-year Assets", ⟨0.20, 15, "Partitioning, Specialized Lighting, Finishes"⟩),
     ("39-year Assets", ⟨0.70, 39, "Building Shell, Structural Elements"⟩)]
  else []

/-- One row of the DataFrame built by `compute_operating_cash_flow`. -/
structure OpCFRecord where
  year : ℕ
  noi : ℚ
  depreciation : ℚ
  taxable_operating_income : ℚ
  tax_liability : ℚ
  operating_cash_flow : ℚ
  cumulative_operating_cash_flow : ℚ
  deriving Repr, DecidableEq

/-- The loop body of `compute_operating_cash_flow` (src/main.py lines 134-149),
folding the running cumulative operating cash flow over the schedule rows. -/
def ocfRows (rental_income operating_expenses tax_bracket : ℚ) :
    List YearRecord → ℚ → List OpCFRecord
  | [], _ => []
  | r :: rest, cum =>
    let depreciation := r.total
    let noi := rental_income - operating_expenses
    let taxable_operating_income := noi - depreciation
    let tax_liability := if taxable_operating_income > 0 then
      taxable_operating_income * (tax_bracket / 100) else 0
    let operating_cf := noi - tax_liability
    let cumulative := cum + operating_cf
    { year := r.year, noi := noi, depreciation := depreciation,
      taxable_operating_income := taxable_operating_income,
      tax_liability := tax_liability, operating_cash_flow := operating_cf,
      cumulative_operating_cash_flow := cumulative } :: ocfRows rental_income operating_expenses tax_bracket rest cumulative

/-- Embeds `compute_operating_cash_flow` (src/main.py lines 121-150). -/
def compute_operating_cash_flow (df_dep : List YearRecord)
    (rental_income operating_expenses tax_bracket : ℚ) : List OpCFRecord :=
  ocfRows rental_income operating_expenses tax_bracket df_dep 0

/-! ### Helper lemmas about the schedule loop -/

/-- The schedule loop produces one row per year. -/
lemma mycfRows_length (b a d : ℚ) :
    ∀ (n y : ℕ) (cum : ℚ), (mycfRows b a d y cum n).length = n := by
  intro n
  induction n with
  | zero => intro y cum; rfl
  | succ m ih => intro y cum; simp [mycfRows, ih]

/-- Row indices produced by the loop are consecutive starting at `y`. -/
lemma mycfRows_year_get (b a d : ℚ) :
    ∀ (n y : ℕ) (cum : ℚ) (i : ℕ) (h : i < (mycfRows b a d y cum n).length),
      ((mycfRows b a d y cum n).get ⟨i, h⟩).year = y + i := by
  intro n
  induction n with
  | zero =>
    intro y cum i h
    rw [mycfRows_length] at h
    exact absurd h (Nat.not_lt_zero i)
  | succ m ih =>
    intro y cum i h
    match i with
    | 0 => rfl
    | j + 1 =>
      have h' : j + 1 < (mycfRows b a d y cum (m + 1)).length := h
      rw [mycfRows_length] at h'
      have hj : j < (mycfRows b a d (y + 1)
          (cum + ((if y = 1 then b else 0) +
            (if y = 1 then a else if (y : ℚ) ≤ d then a else 0))) m).length := by
        rw [mycfRows_length]; omega
      calc ((mycfRows b a d y cum (m + 1)).get ⟨j + 1, h⟩).year
          = ((mycfRows b a d (y + 1) (cum + ((if y = 1 then b else 0) +
              (if y = 1 then a else if (y : ℚ) ≤ d then a else 0))) m).get ⟨j, hj⟩).year := rfl
        _ = (y + 1) + j := ih (y + 1) _ j hj
        _ = y + (j + 1) := by omega

/-- Field contents of every row produced by the schedule loop. -/
lemma mycfRows_mem (b a d : ℚ) :
    ∀ (n y : ℕ) (cum : ℚ) (r : YearRecord), r ∈ mycfRows b a d y cum n →
      y ≤ r.year ∧ r.year < y + n ∧
      r.bonus = (if r.year = 1 then b else 0) ∧
      r.normal = (if r.year = 1 then a else if (r.year : ℚ) ≤ d then a else 0) ∧
      r.total = r.bonus + r.normal := by
  intro n
  induction n with
  | zero => intro y cum r hr; cases hr
  | succ m ih =>
    intro y cum r hr
    rw [mycfRows] at hr
    rcases List.mem_cons.mp hr with h | h
    · subst h
      refine ⟨Nat.le_refl _, ?_, rfl, rfl, rfl⟩
      show y < y + (m + 1)
      omega
    · obtain ⟨h1, h2, h3, h4, h5⟩ := ih (y + 1) _ r h
      exact ⟨by omega, by omega, h3, h4, h5⟩

/-- If the per-year totals are nonnegative, the running cumulative column is a
non-decreasing chain starting from the incoming accumulator. -/
lemma mycfRows_cum_chain (b a d : ℚ) (hb : 0 ≤ b) (ha : 0 ≤ a) :
    ∀ (n y : ℕ) (cum : ℚ),
      List.Chain (fun p q => p ≤ q) cum
        ((mycfRows b a d y cum n).map YearRecord.cumulative) := by
  intro n
  induction n with
  | zero => intro y cum; exact List.Chain.nil
  | succ m ih =>
    intro y cum
    rw [mycfRows]
    simp only [List.map_cons]
    refine List.Chain.cons ?_ (ih (y + 1) _)
    have htot : 0 ≤ (if y = 1 then b else 0) +
        (if y = 1 then a else if (y : ℚ) ≤ d then a else 0) := by
      split_ifs <;> linarith
    show cum ≤ cum + _
    linarith

/-- Upper-bound invariant for the cumulative column on the tail of the loop
(years `y ≥ 2`): if the accumulator plus the worst-case remaining normal
depreciation is below `bv`, every produced cumulative value is below `bv`. -/
lemma mycfRows_cum_le (b a d bv : ℚ) (ha : 0 ≤ a) :
    ∀ (n y : ℕ) (cum : ℚ), 2 ≤ y →
      cum + a * max 0 (d - ((y : ℚ) - 1)) ≤ bv →
      ∀ r ∈ mycfRows b a d y cum n, r.cumulative ≤ bv := by
  intro n
  induction n with
  | zero => intro y cum _ _ r hr; cases hr
  | succ m ih =>
    intro y cum hy hinv r hr
    have hy1 : y ≠ 1 := by omega
    rw [mycfRows] at hr
    simp only [hy1, if_false] at hr
    have hmax : 0 ≤ max 0 (d - ((y : ℚ) - 1)) := le_max_left _ _
    rcases List.mem_cons.mp hr with h | h
    · subst h
      show cum + (0 + if (y : ℚ) ≤ d then a else 0) ≤ bv
      split_ifs with hyd
      · have h1 : (1 : ℚ) ≤ d - ((y : ℚ) - 1) := by linarith
        have : a * 1 ≤ a * max 0 (d - ((y : ℚ) - 1)) := by
          apply mul_le_mul_of_nonneg_left _ ha
          exact le_trans h1 (le_max_right _ _)
        nlinarith
      · nlinarith
    · apply ih (y + 1) _ (by omega) _ r h
      push_cast
      split_ifs with hyd
      · have h1 : max 0 (d - ((y : ℚ) - 1)) = d - ((y : ℚ) - 1) := by
          rw [max_eq_right (by linarith : (0 : ℚ) ≤ d - ((y : ℚ) - 1))]
        have h2 : max 0 (d - ((y : ℚ) + 1 - 1)) = d - (y : ℚ) := by
          rw [max_eq_right (by linarith : (0 : ℚ) ≤ d - ((y : ℚ) + 1 - 1))]
          ring
        rw [h2]
        rw [h1] at hinv
        have h3 : a * (d - ((y : ℚ) - 1)) = a * (d - (y : ℚ)) + a := by ring
        linarith
      · have h2 : max 0 (d - ((y : ℚ) + 1 - 1)) ≤ max 0 (d - ((y : ℚ) - 1)) := by
          apply max_le_max (le_refl _); linarith
        have := mul_le_mul_of_nonneg_left h2 ha
        linarith

/-- On the tail of the loop (years `y ≥ 2`), the per-year totals form a
non-increasing chain below the previous year's total `t0`. -/
lemma mycfRows_total_chain (b a d : ℚ) (ha : 0 ≤ a) :
    ∀ (n y : ℕ) (cum t0 : ℚ), 2 ≤ y →
      (if (y : ℚ) ≤ d then a else 0) ≤ t0 →
      List.Chain (fun p q => q ≤ p) t0
        ((mycfRows b a d y cum n).map YearRecord.total) := by
  intro n
  induction n with
  | zero => intro y cum t0 _ _; exact List.Chain.nil
  | succ m ih =>
    intro y cum t0 hy ht0
    have hy1 : y ≠ 1 := by omega
    rw [mycfRows]
    simp only [hy1, if_false, List.map_cons]
    refine List.Chain.cons ?_ ?_
    · show 0 + (if (y : ℚ) ≤ d then a else 0) ≤ t0
      rw [zero_add]
      exact ht0
    · apply ih (y + 1) _ _ (by omega)
      push_cast
      rcases le_or_lt ((y : ℚ) + 1) d with hle | hlt
      · rw [if_pos hle, if_pos (by linarith : (y : ℚ) ≤ d)]
        linarith
      · rw [if_neg (not_le.mpr hlt)]
        split_ifs <;> linarith

/-- Unfolding of `multi_year_cash_flow` for a positive number of years:
the year-1 row followed by the loop restarted at year 2. -/
lemma multi_year_cash_flow_succ (pv lv d bp : ℚ) (m : ℕ) :
    multi_year_cash_flow pv lv d bp (m + 1) =
      { year := 1, bonus := (pv - lv) * bp,
        normal := ((pv - lv) - (pv - lv) * bp) / d,
        total := (pv - lv) * bp + ((pv - lv) - (pv - lv) * bp) / d,
        cumulative := 0 + ((pv - lv) * bp + ((pv - lv) - (pv - lv) * bp) / d) } ::
      mycfRows ((pv - lv) * bp) (((pv - lv) - (pv - lv) * bp) / d) d 2
        (0 + ((pv - lv) * bp + ((pv - lv) - (pv - lv) * bp) / d)) m := rfl

/-! ### Helper lemmas about the operating cash flow loop -/

/-- The cash-flow loop produces one record per schedule row. -/
lemma ocfRows_length (ri oe tb : ℚ) :
    ∀ (l : List YearRecord) (cum : ℚ), (ocfRows ri oe tb l cum).length = l.length := by
  intro l
  induction l with
  | nil => intro cum; rfl
  | cons r rest ih => intro cum; simp [ocfRows, ih]

/-- The cash-flow loop preserves the year indices of the schedule. -/
lemma ocfRows_map_year (ri oe tb : ℚ) :
    ∀ (l : List YearRecord) (cum : ℚ),
      (ocfRows ri oe tb l cum).map OpCFRecord.year = l.map YearRecord.year := by
  intro l
  induction l with
  | nil => intro cum; rfl
  | cons r rest ih => intro cum; simp [ocfRows, ih]

/-- Field contents of the `i`-th record of the cash-flow loop, relative to the
`i`-th schedule row and the incoming accumulator. -/
lemma ocfRows_get? (ri oe tb : ℚ) :
    ∀ (l : List YearRecord) (cum : ℚ) (i : ℕ) (o : OpCFRecord) (r : YearRecord),
      (ocfRows ri oe tb l cum).get? i = some o → l.get? i = some r →
      o.year = r.year ∧ o.noi = ri - oe ∧ o.depreciation = r.total ∧
      o.taxable_operating_income = (ri - oe) - r.total ∧
      o.tax_liability =
        (if (ri - oe) - r.total > 0 then ((ri - oe) - r.total) * (tb / 100) else 0) ∧
      o.operating_cash_flow = (ri - oe) - o.tax_liability ∧
      o.cumulative_operating_cash_flow =
        cum + (((ocfRows ri oe tb l cum).take (i + 1)).map
          OpCFRecord.operating_cash_flow).sum := by
  intro l
  induction l with
  | nil => intro cum i o r ho hr; simp [ocfRows] at ho
  | cons r0 rest ih =>
    intro cum i o r ho hr
    match i with
    | 0 =>
      rw [ocfRows] at ho
      rw [List.get?_cons_zero, Option.some.injEq] at ho hr
      subst ho
      subst hr
      refine ⟨rfl, rfl, rfl, rfl, rfl, rfl, ?_⟩
      rw [ocfRows]
      simp [List.sum_cons]
    | j + 1 =>
      rw [ocfRows] at ho
      rw [List.get?_cons_succ] at ho hr
      obtain ⟨c1, c2, c3, c4, c5, c6, c7⟩ := ih _ j o r ho hr
      refine ⟨c1, c2, c3, c4, c5, c6, ?_⟩
      rw [c7, ocfRows]
      simp only [List.take_succ_cons, List.map_cons, List.sum_cons]
      ring

/-! ### Claims -/

/-- C1: the claim says `calculate_depreciation` fails with `InvalidInputError`
whenever `buildingValue = propertyValue - landValue ≤ 0` (or
`depreciationYears ≤ 0`) and never silently returns.  The source
(src/main.py lines 12-24) performs no validation: at
`property_value = 10000000`, `land_value = 12000000` (building value
`-2000000 ≤ 0`), `dep_years = 27.5`, `bonus_percent = 0.4` it silently
returns the negative triple `(-800000, -480000/11, -9280000/11)`. -/
theorem c1_no_validation_on_nonpositive_building_value :
    (10000000 : ℚ) - 12000000 ≤ 0 ∧
    calculate_depreciation 10000000 12000000 (55/2) (2/5) =
      (-800000, -480000/11, -9280000/11) := by
  refine ⟨by norm_num, ?_⟩
  norm_num [calculate_depreciation]

/-- C3 counterexample: the claim quantifies over every
`cumulativeDepreciation` and asserts that a negative `totalGain` always
yields `capitalGainsTax = 0`; with the (nonsensical but quantified-over)
negative `cumulativeDepreciation = -5`, `costBasis = 0`, `salePrice = 4`
and the default rates, `totalGain = -1 < 0` yet
`capitalGainsTax = 4/5 ≠ 0`. -/
theorem c3_loss_counterexample :
    (calculate_sale_tax 0 4 (-5) (1/4) (1/5)).total_gain < 0 ∧
    (calculate_sale_tax 0 4 (-5) (1/4) (1/5)).cap_gains_tax ≠ 0 := by
  constructor <;> norm_num [calculate_sale_tax, max_def]

/-- C3 (amended: the loss clause requires `cumulativeDepreciation ≥ 0`):
`calculate_sale_tax` returns `adjustedBasis = costBasis - cumulativeDepreciation`,
`totalGain = salePrice - adjustedBasis`,
`recaptureTax = cumulativeDepreciation * recaptureRate` uncapped,
`capitalGainsTax = max (totalGain - cumulativeDepreciation) 0 * capitalGainsRate`
and `totalTax` their sum; when `cumulativeDepreciation ≥ 0` a negative
`totalGain` yields `capitalGainsTax = 0`. -/
theorem c3_sale_tax_formulas (cb sp cd rr cg : ℚ) :
    (calculate_sale_tax cb sp cd rr cg).adjusted_basis = cb - cd ∧
    (calculate_sale_tax cb sp cd rr cg).total_gain = sp - (cb - cd) ∧
    (calculate_sale_tax cb sp cd rr cg).dep_recapture_tax = cd * rr ∧
    (calculate_sale_tax cb sp cd rr cg).cap_gains_tax =
      max ((sp - (cb - cd)) - cd) 0 * cg ∧
    (calculate_sale_tax cb sp cd rr cg).total_tax =
      cd * rr + max ((sp - (cb - cd)) - cd) 0 * cg ∧
    (0 ≤ cd → (calculate_sale_tax cb sp cd rr cg).total_gain < 0 →
      (calculate_sale_tax cb sp cd rr cg).cap_gains_tax = 0) := by
  refine ⟨rfl, rfl, rfl, rfl, rfl, ?_⟩
  intro hcd hloss
  have hgain : sp - (cb - cd) < 0 := hloss
  show max ((sp - (cb - cd)) - cd) 0 * cg = 0
  rw [max_eq_right (by linarith : (sp - (cb - cd)) - cd ≤ 0), zero_mul]

/-- C3 witness: at `costBasis = 10`, `salePrice = 3`,
`cumulativeDepreciation = 5` and the default rates, the sale is a loss
(`totalGain = -2 < 0`) and the capital gains tax is zero. -/
theorem c3_sale_tax_formulas_witness :
    (0 : ℚ) ≤ 5 ∧ (calculate_sale_tax 10 3 5 (1/4) (1/5)).total_gain < 0 ∧
    (calculate_sale_tax 10 3 5 (1/4) (1/5)).cap_gains_tax = 0 :=
  ⟨by norm_num, by norm_num [calculate_sale_tax],
    (c3_sale_tax_formulas 10 3 5 (1/4) (1/5)).2.2.2.2.2 (by norm_num)
      (by norm_num [calculate_sale_tax])⟩

/-- C6: `simulate_1031_exchange` returns exactly the `Total Tax` of
`calculate_sale_tax` on the same cost basis, sale price, cumulative
depreciation and rates, and its result does not depend on
`reinvested_value`. -/
theorem c6_exchange_delegates (sp td cb rv rr cg : ℚ) :
    simulate_1031_exchange sp td cb rv rr cg =
      (calculate_sale_tax cb sp td rr cg).total_tax ∧
    ∀ rv2 : ℚ, simulate_1031_exchange sp td cb rv rr cg =
      simulate_1031_exchange sp td cb rv2 rr cg :=
  ⟨rfl, fun _ => rfl⟩

/-- C8: `calculate_depreciation` returns `bonus = buildingValue * bonusPercent`,
`normal = (buildingValue - bonus) / depreciationYears` and
`total = bonus + normal`, with `buildingValue = propertyValue - landValue`. -/
theorem c8_year_one_formulas (pv lv d bp : ℚ) (hd : 0 < d) :
    calculate_depreciation pv lv d bp =
      ((pv - lv) * bp, ((pv - lv) - (pv - lv) * bp) / d,
        (pv - lv) * bp + ((pv - lv) - (pv - lv) * bp) / d) := rfl

/-- C8 witness: the spec's example scenario: `propertyValue = 10,000,000`,
`landValue = 2,000,000`, `depreciationYears = 27.5`, `bonusPercent = 0.4`
gives `bonus = 3,200,000`, `normal = 1920000/11 ≈ 174,545.45` and
`total = 37120000/11 ≈ 3,374,545.45`. -/
theorem c8_year_one_formulas_witness :
    (0 : ℚ) < 55/2 ∧
    calculate_depreciation 10000000 2000000 (55/2) (2/5) =
      (3200000, 1920000/11, 37120000/11) := by
  refine ⟨by norm_num, ?_⟩
  rw [c8_year_one_formulas 10000000 2000000 (55/2) (2/5) (by norm_num)]
  norm_num

/-- C2 counterexample: the claim quantifies over every positive
`depreciationYears` and asserts normal depreciation is nonzero exactly in the
modeled years whose index is `≤ depreciationYears`.  With
`depreciationYears = 1/2`, `years = 1`, `bonusPercent = 0`
(property 2, land 1), the single year-1 row carries the full annual amount
`2 ≠ 0` although its index `1` exceeds `1/2`. -/
theorem c2_schedule_counterexample :
    multi_year_cash_flow 2 1 (1/2) 0 1 =
      [{ year := 1, bonus := 0, normal := 2, total := 2, cumulative := 2 }] ∧
    ¬ ((1 : ℚ) ≤ 1/2) ∧ (2 : ℚ) ≠ 0 := by
  refine ⟨?_, by norm_num, by norm_num⟩
  norm_num [multi_year_cash_flow, mycfRows]

/-- C2 (amended: requires `depreciationYears ≥ 1`; the source special-cases
year 1, which always receives the full annual amount even when
`depreciationYears < 1`): the schedule has exactly `years` rows indexed
`1..years`, bonus depreciation is nonzero only in year 1 where it equals
`buildingValue * bonusPercent`, and normal depreciation equals
`(buildingValue - bonus) / depreciationYears` in exactly the modeled years
whose index is `≤ depreciationYears`, zero in every later year. -/
theorem c2_schedule_shape (pv lv d bp : ℚ) (years : ℕ) (hd : 1 ≤ d)
    (hy : 0 < years) (hbp0 : 0 ≤ bp) (hbp1 : bp ≤ 1) :
    (multi_year_cash_flow pv lv d bp years).length = years ∧
    (∀ (i : ℕ) (h : i < (multi_year_cash_flow pv lv d bp years).length),
      ((multi_year_cash_flow pv lv d bp years).get ⟨i, h⟩).year = i + 1) ∧
    ∀ r ∈ multi_year_cash_flow pv lv d bp years,
      (2 ≤ r.year → r.bonus = 0) ∧
      (r.year = 1 → r.bonus = (pv - lv) * bp) ∧
      ((r.year : ℚ) ≤ d → r.normal = ((pv - lv) - (pv - lv) * bp) / d) ∧
      (d < (r.year : ℚ) → r.normal = 0) := by
  refine ⟨mycfRows_length _ _ _ years 1 0, ?_, ?_⟩
  · intro i h
    have h' : i < (mycfRows ((pv - lv) * bp) (((pv - lv) - (pv - lv) * bp) / d)
        d 1 0 years).length := h
    show ((mycfRows ((pv - lv) * bp) (((pv - lv) - (pv - lv) * bp) / d)
        d 1 0 years).get ⟨i, h'⟩).year = i + 1
    rw [mycfRows_year_get]
    omega
  · intro r hr
    obtain ⟨h1, h2, hb, hn, ht⟩ :=
      mycfRows_mem ((pv - lv) * bp) (((pv - lv) - (pv - lv) * bp) / d) d years 1 0 r hr
    refine ⟨?_, ?_, ?_, ?_⟩
    · intro hge; rw [hb, if_neg (by omega)]
    · intro heq; rw [hb, if_pos heq]
    · intro hled
      rw [hn]
      by_cases hone : r.year = 1
      · rw [if_pos hone]
      · rw [if_neg hone, if_pos hled]
    · intro hgt
      have hone : r.year ≠ 1 := by
        intro e
        rw [e] at hgt
        push_cast at hgt
        linarith
      rw [hn, if_neg hone, if_neg (not_le.mpr hgt)]

/-- C2 witness: at the spec's example inputs with a 2-year horizon,
the schedule has exactly 2 rows. -/
theorem c2_schedule_shape_witness :
    (1 : ℚ) ≤ 55/2 ∧ 0 < 2 ∧ (0 : ℚ) ≤ 2/5 ∧ (2/5 : ℚ) ≤ 1 ∧
    (multi_year_cash_flow 10000000 2000000 (55/2) (2/5) 2).length = 2 :=
  ⟨by norm_num, by norm_num, by norm_num, by norm_num,
    (c2_schedule_shape 10000000 2000000 (55/2) (2/5) 2 (by norm_num) (by norm_num)
      (by norm_num) (by norm_num)).1⟩

/-- C4 counterexample: the claim asserts the final cumulative depreciation
is `≤ buildingValue` whenever `years ≥ depreciationYears`, for every
positive `depreciationYears`.  With `depreciationYears = 1/2`,
`years = 1 ≥ 1/2`, `bonusPercent = 0`, building value `2 - 1 = 1`, the final
cumulative value is `2 > 1`. -/
theorem c4_cumulative_counterexample :
    (0 : ℚ) < 2 - 1 ∧ (0 : ℚ) < 1/2 ∧ (1/2 : ℚ) ≤ ((1 : ℕ) : ℚ) ∧
    (multi_year_cash_flow 2 1 (1/2) 0 1).map YearRecord.cumulative = [2] ∧
    ¬ ((2 : ℚ) ≤ 2 - 1) := by
  refine ⟨by norm_num, by norm_num, by norm_num, ?_, by norm_num⟩
  norm_num [multi_year_cash_flow, mycfRows]

/-- C4 (amended: the upper bound additionally requires
`depreciationYears ≥ 1`; monotonicity holds for every positive
`depreciationYears`): the cumulative depreciation column is monotonically
non-decreasing, and when `depreciationYears ≥ 1` every cumulative value —
in particular the final one when `years ≥ depreciationYears` — is at most
the building value. -/
theorem c4_cumulative_invariant (pv lv d bp : ℚ) (years : ℕ) (hbv : 0 < pv - lv)
    (hd : 0 < d) (hbp0 : 0 ≤ bp) (hbp1 : bp ≤ 1) (hy : 0 < years) :
    List.Chain' (fun p q => p ≤ q)
      ((multi_year_cash_flow pv lv d bp years).map YearRecord.cumulative) ∧
    (1 ≤ d → d ≤ (years : ℚ) →
      ∀ r ∈ multi_year_cash_flow pv lv d bp years, r.cumulative ≤ pv - lv) := by
  have hb : 0 ≤ (pv - lv) * bp := mul_nonneg (le_of_lt hbv) hbp0
  have hrem : 0 ≤ (pv - lv) - (pv - lv) * bp := by nlinarith
  have ha : 0 ≤ ((pv - lv) - (pv - lv) * bp) / d := div_nonneg hrem (le_of_lt hd)
  have had : ((pv - lv) - (pv - lv) * bp) / d * d = (pv - lv) - (pv - lv) * bp :=
    div_mul_cancel₀ _ (ne_of_gt hd)
  obtain ⟨m, rfl⟩ : ∃ m, years = m + 1 := ⟨years - 1, by omega⟩
  constructor
  · rw [multi_year_cash_flow_succ, List.map_cons]
    show List.Chain (fun p q => p ≤ q)
      (0 + ((pv - lv) * bp + ((pv - lv) - (pv - lv) * bp) / d))
      (List.map YearRecord.cumulative
        (mycfRows ((pv - lv) * bp) (((pv - lv) - (pv - lv) * bp) / d) d 2
          (0 + ((pv - lv) * bp + ((pv - lv) - (pv - lv) * bp) / d)) m))
    exact mycfRows_cum_chain _ _ _ hb ha m 2 _
  · intro hd1 hdy r hr
    rw [multi_year_cash_flow_succ] at hr
    have hale : ((pv - lv) - (pv - lv) * bp) / d ≤ (pv - lv) - (pv - lv) * bp := by
      nlinarith
    rcases List.mem_cons.mp hr with hhead | htail
    · subst hhead
      show 0 + ((pv - lv) * bp + ((pv - lv) - (pv - lv) * bp) / d) ≤ pv - lv
      linarith
    · refine mycfRows_cum_le _ _ _ (pv - lv) ha m 2 _ (by norm_num) ?_ r htail
      have hmax : max 0 (d - (((2 : ℕ) : ℚ) - 1)) = d - 1 := by
        push_cast
        rw [max_eq_right (by linarith : (0 : ℚ) ≤ d - (2 - 1))]
        ring
      rw [hmax]
      nlinarith

/-- C4 witness: a fully in-period scenario (`depreciationYears = 2`,
`years = 2`): the year-2 row's cumulative depreciation `8,000,000` equals,
and does not exceed, the building value. -/
theorem c4_cumulative_invariant_witness :
    (0 : ℚ) < 10000000 - 2000000 ∧ (0 : ℚ) < 2 ∧ (0 : ℚ) ≤ 2/5 ∧ (2/5 : ℚ) ≤ 1 ∧
    0 < 2 ∧ (1 : ℚ) ≤ 2 ∧ (2 : ℚ) ≤ ((2 : ℕ) : ℚ) ∧
    ({ year := 2, bonus := 0, normal := 2400000, total := 2400000,
       cumulative := 8000000 } : YearRecord).cumulative ≤ 10000000 - 2000000 :=
  ⟨by norm_num, by norm_num, by norm_num, by norm_num, by norm_num, by norm_num,
    by norm_num,
    (c4_cumulative_invariant 10000000 2000000 2 (2/5) 2 (by norm_num) (by norm_num)
      (by norm_num) (by norm_num) (by norm_num)).2 (by norm_num) (by norm_num) _
      (by norm_num [multi_year_cash_flow_succ, mycfRows])⟩

/-- C5: for identical inputs, the `(bonus, normal, total)` triple of
`calculate_depreciation` equals the year-1 row of the schedule built by
`multi_year_cash_flow` (whenever at least one year is modeled). -/
theorem c5_year_one_consistency (pv lv d bp : ℚ) (years : ℕ) (hy : 0 < years) :
    ((multi_year_cash_flow pv lv d bp years).head?).map
      (fun r => (r.bonus, r.normal, r.total)) =
      some (calculate_depreciation pv lv d bp) := by
  obtain ⟨m, rfl⟩ : ∃ m, years = m + 1 := ⟨years - 1, by omega⟩
  rfl

/-- C5 witness: the consistency law at the spec's example inputs with a
one-year horizon. -/
theorem c5_year_one_consistency_witness :
    0 < 1 ∧
    ((multi_year_cash_flow 10000000 2000000 (55/2) (2/5) 1).head?).map
      (fun r => (r.bonus, r.normal, r.total)) =
      some (calculate_depreciation 10000000 2000000 (55/2) (2/5)) :=
  ⟨by norm_num, c5_year_one_consistency 10000000 2000000 (55/2) (2/5) 1 (by norm_num)⟩

/-- C9: for each of the four defined property types the
`percentOfBuildingValue` entries of `get_asset_breakdown` sum to 1.0 within
`±0.01` (in fact exactly), and every unrecognized property type — such as
"Industrial" — yields the empty mapping, not an error. -/
theorem c9_asset_breakdown (s : String)
    (hs : s ∉ ["Multifamily", "Hotel", "Retail", "Office"]) :
    (∀ t ∈ ["Multifamily", "Hotel", "Retail", "Office"],
      |((get_asset_breakdown t).map (fun p => p.2.pct)).sum - 1| ≤ 1/100) ∧
    get_asset_breakdown "Industrial" = [] ∧
    get_asset_breakdown s = [] := by
  refine ⟨?_, rfl, ?_⟩
  · intro t ht
    have d1 : ("Hotel" : String) ≠ "Multifamily" := by decide
    have d2 : ("Retail" : String) ≠ "Multifamily" := by decide
    have d3 : ("Retail" : String) ≠ "Hotel" := by decide
    have d4 : ("Office" : String) ≠ "Multifamily" := by decide
    have d5 : ("Office" : String) ≠ "Hotel" := by decide
    have d6 : ("Office" : String) ≠ "Retail" := by decide
    fin_cases ht <;>
      norm_num [get_asset_breakdown, abs_le, d1, d2, d3, d4, d5, d6]
  · simp only [List.mem_cons, List.not_mem_nil, or_false, not_or] at hs
    obtain ⟨h1, h2, h3, h4⟩ := hs
    simp [get_asset_breakdown, h1, h2, h3, h4]

/-- C9 witness: "Industrial" is not one of the four defined property types
and receives the empty breakdown; "Multifamily" is defined and its
percentages sum to 1.0 within tolerance. -/
theorem c9_asset_breakdown_witness :
    "Industrial" ∉ ["Multifamily", "Hotel", "Retail", "Office"] ∧
    "Multifamily" ∈ ["Multifamily", "Hotel", "Retail", "Office"] ∧
    |((get_asset_breakdown "Multifamily").map (fun p => p.2.pct)).sum - 1| ≤ 1/100 ∧
    get_asset_breakdown "Industrial" = [] := by
  have h := c9_asset_breakdown "Industrial" (by simp)
  exact ⟨by simp, by simp, h.1 "Multifamily" (by simp), h.2.2⟩

/-- C10: for nonnegative building value, `bonusPercent ∈ [0,1]`, positive
`depreciationYears` and a positive number of modeled years, the per-year
Total Depreciation column of `multi_year_cash_flow` is monotonically
non-increasing (year 1, bonus plus annual amount, is the largest), and every
year after year 1 whose index exceeds `depreciationYears` has total
depreciation 0. -/
theorem c10_total_non_increasing (pv lv d bp : ℚ) (years : ℕ) (hbv : 0 ≤ pv - lv)
    (hd : 0 < d) (hbp0 : 0 ≤ bp) (hbp1 : bp ≤ 1) (hy : 0 < years) :
    List.Chain' (fun p q => q ≤ p)
      ((multi_year_cash_flow pv lv d bp years).map YearRecord.total) ∧
    ∀ r ∈ multi_year_cash_flow pv lv d bp years,
      2 ≤ r.year → d < (r.year : ℚ) → r.total = 0 := by
  have hb : 0 ≤ (pv - lv) * bp := mul_nonneg hbv hbp0
  have ha : 0 ≤ ((pv - lv) - (pv - lv) * bp) / d := by
    apply div_nonneg _ (le_of_lt hd)
    nlinarith
  obtain ⟨m, rfl⟩ : ∃ m, years = m + 1 := ⟨years - 1, by omega⟩
  constructor
  · rw [multi_year_cash_flow_succ, List.map_cons]
    show List.Chain (fun p q => q ≤ p)
      ((pv - lv) * bp + ((pv - lv) - (pv - lv) * bp) / d)
      (List.map YearRecord.total
        (mycfRows ((pv - lv) * bp) (((pv - lv) - (pv - lv) * bp) / d) d 2
          (0 + ((pv - lv) * bp + ((pv - lv) - (pv - lv) * bp) / d)) m))
    refine mycfRows_total_chain _ _ _ ha m 2 _ _ (by norm_num) ?_
    split_ifs <;> linarith
  · intro r hr h2 hd2
    obtain ⟨hy1, hy2, hbo, hn, ht⟩ :=
      mycfRows_mem ((pv - lv) * bp) (((pv - lv) - (pv - lv) * bp) / d) d
        (m + 1) 1 0 r hr
    have hone : r.year ≠ 1 := by omega
    rw [ht, hbo, hn, if_neg hone, if_neg hone, if_neg (not_le.mpr hd2)]
    ring

/-- C10 witness: with `depreciationYears = 1` and two modeled years, the
year-2 row lies beyond the depreciation period and its total depreciation
is zero. -/
theorem c10_total_non_increasing_witness :
    (0 : ℚ) ≤ 10000000 - 2000000 ∧ (0 : ℚ) < 1 ∧ (0 : ℚ) ≤ 2/5 ∧ (2/5 : ℚ) ≤ 1 ∧
    0 < 2 ∧ 2 ≤ 2 ∧ (1 : ℚ) < ((2 : ℕ) : ℚ) ∧
    ({ year := 2, bonus := 0, normal := 0, total := 0,
       cumulative := 8000000 } : YearRecord).total = 0 :=
  ⟨by norm_num, by norm_num, by norm_num, by norm_num, by norm_num, by norm_num,
    by norm_num,
    (c10_total_non_increasing 10000000 2000000 1 (2/5) 2 (by norm_num) (by norm_num)
      (by norm_num) (by norm_num) (by norm_num)).2 _
      (by norm_num [multi_year_cash_flow_succ, mycfRows]) (by norm_num) (by norm_num)⟩

/-- C7: `compute_operating_cash_flow` produces one record per schedule row
with the same year indices; each record has `noi = rentalIncome -
operatingExpenses`, `taxable = noi - totalDepreciation`, a tax liability of
`taxable * taxBracket/100` only when `taxable > 0` (losses are not
refunded), `operatingCashFlow = noi - taxLiability`, and cumulative
operating cash flow the running sum in year order. -/
theorem c7_operating_cash_flow (sched : List YearRecord) (ri oe tb : ℚ) (i : ℕ)
    (o : OpCFRecord) (r : YearRecord)
    (ho : (compute_operating_cash_flow sched ri oe tb).get? i = some o)
    (hr : sched.get? i = some r) :
    (compute_operating_cash_flow sched ri oe tb).length = sched.length ∧
    (compute_operating_cash_flow sched ri oe tb).map OpCFRecord.year =
      sched.map YearRecord.year ∧
    o.year = r.year ∧ o.noi = ri - oe ∧ o.depreciation = r.total ∧
    o.taxable_operating_income = (ri - oe) - r.total ∧
    o.tax_liability =
      (if (ri - oe) - r.total > 0 then ((ri - oe) - r.total) * (tb / 100) else 0) ∧
    o.operating_cash_flow = (ri - oe) - o.tax_liability ∧
    o.cumulative_operating_cash_flow =
      (((compute_operating_cash_flow sched ri oe tb).take (i + 1)).map
        OpCFRecord.operating_cash_flow).sum := by
  obtain ⟨c1, c2, c3, c4, c5, c6, c7⟩ := ocfRows_get? ri oe tb sched 0 i o r ho hr
  refine ⟨ocfRows_length ri oe tb sched 0, ocfRows_map_year ri oe tb sched 0,
    c1, c2, c3, c4, c5, c6, ?_⟩
  rw [c7, zero_add]
  rfl

/-- C7 witness: the spec's example — rental income 500,000, operating
expenses 150,000, year-1 depreciation 37120000/11 ≈ 3,374,545.45 — gives
`noi = 350,000`, a negative taxable income, zero tax liability and an
operating cash flow of 350,000. -/
theorem c7_operating_cash_flow_witness :
    (compute_operating_cash_flow
        [{ year := 1, bonus := 3200000, normal := 1920000/11,
           total := 37120000/11, cumulative := 37120000/11 }]
        500000 150000 37).get? 0 =
      some { year := 1, noi := 350000, depreciation := 37120000/11,
             taxable_operating_income := -33270000/11, tax_liability := 0,
             operating_cash_flow := 350000,
             cumulative_operating_cash_flow := 350000 } ∧
    ([{ year := 1, bonus := 3200000, normal := 1920000/11,
        total := 37120000/11, cumulative := 37120000/11 }] :
        List YearRecord).get? 0 =
      some { year := 1, bonus := 3200000, normal := 1920000/11,
             total := 37120000/11, cumulative := 37120000/11 } ∧
    ({ year := 1, noi := 350000, depreciation := 37120000/11,
       taxable_operating_income := -33270000/11, tax_liability := 0,
       operating_cash_flow := 350000,
       cumulative_operating_cash_flow := 350000 } : OpCFRecord).noi =
      500000 - 150000 ∧
    ({ year := 1, noi := 350000, depreciation := 37120000/11,
       taxable_operating_income := -33270000/11, tax_liability := 0,
       operating_cash_flow := 350000,
       cumulative_operating_cash_flow := 350000 } : OpCFRecord).operating_cash_flow =
      (500000 - 150000) -
        ({ year := 1, noi := 350000, depreciation := 37120000/11,
           taxable_operating_income := -33270000/11, tax_liability := 0,
           operating_cash_flow := 350000,
           cumulative_operating_cash_flow := 350000 } : OpCFRecord).tax_liability := by
  have h1 : (compute_operating_cash_flow
      [{ year := 1, bonus := 3200000, normal := 1920000/11,
         total := 37120000/11, cumulative := 37120000/11 }]
      500000 150000 37).get? 0 =
      some { year := 1, noi := 350000, depreciation := 37120000/11,
             taxable_operating_income := -33270000/11, tax_liability := 0,
             operating_cash_flow := 350000,
             cumulative_operating_cash_flow := 350000 } := by
    norm_num [compute_operating_cash_flow, ocfRows]
  have h := c7_operating_cash_flow
    [{ year := 1, bonus := 3200000, normal := 1920000/11,
       total := 37120000/11, cumulative := 37120000/11 }]
    500000 150000 37 0 _ _ h1 rfl
  exact ⟨h1, rfl, h.2.2.2.1, h.2.2.2.2.2.2.2.1⟩

end TaxApp
